import Mathlib

/-!
# DTLSAgent (worker/include/RTC/DTLSAgent.h)

A shallow embedding of the header `DTLSAgent.h`: the two enumerations, the
listener interface, the private fields with their default member
initializers, and the inline methods `IsDTLS`, `IsConnected` and `IsRunning`.

The methods the header only declares are defined in `DTLSAgent.cpp`; those
used below are modelled from the specification, each marked as such, over the
fields of the header and with the handshake engine as a parameter.
-/

namespace RTC

/-- Modelled from the spec: the typedef of `MS_BYTE` lives in `common.h`; the
classification reads the first byte as an unsigned 8-bit value, so a byte is
a number below 256. -/
abbrev MS_BYTE := Fin 256

namespace DTLSAgent

/-- One run of `IsDTLS(data, len)`: `data` is the memory that really exists
behind the pointer, `len` the length argument.  The result is `none` when the
run reads `data[i]` at an index where no byte exists (undefined behaviour in
C++); otherwise it is the returned value together with the indices read, in
evaluation order.  Both `&&` are short-circuit, and `data[0]` is read once
per comparison that is evaluated. -/
def IsDTLS.run (data : List MS_BYTE) (len : Nat) : Option (Bool × List Nat) :=
  if len ≥ 13 then
    match data[0]? with
    | none => none
    | some b0 =>
      if b0.val > 19 then
        match data[0]? with
        | none => none
        | some b1 => some (decide (b1.val < 64), [0, 0])
      else some (false, [0])
  else some (false, [])

/-- The value returned by `IsDTLS(data, len)`, `none` for an out-of-bounds
read. -/
def IsDTLS (data : List MS_BYTE) (len : Nat) : Option Bool :=
  (IsDTLS.run data len).map Prod.fst

/-- The values of the enumerators of a C++ enumeration, in declaration order:
an enumerator with an initializer has that value, one without has the value
of the one before it plus one (`next`, which is zero at the start). -/
def enumeratorValues : Nat → List (Option Nat) → List Nat
  | _, [] => []
  | _, some v :: rest => v :: enumeratorValues (v + 1) rest
  | next, none :: rest => next :: enumeratorValues (next + 1) rest

/-- The enumeration `enum class DTLSRole`. -/
inductive DTLSRole where
  | NONE
  | SERVER
  | CLIENT
  deriving DecidableEq, Repr

/-- The enumeration `enum class FingerprintHash`. -/
inductive FingerprintHash where
  | NONE
  | SHA1
  | SHA224
  | SHA256
  | SHA384
  | SHA512
  deriving DecidableEq, Repr

/-- The enumerator list of `FingerprintHash` as written in the header: each
enumerator with its initializer, if it has one. -/
def FingerprintHash.enumerators : List (FingerprintHash × Option Nat) :=
  [(.NONE, some 0), (.SHA1, some 1), (.SHA224, none), (.SHA256, none),
   (.SHA384, none), (.SHA512, none)]

/-- The enumerators of `FingerprintHash` paired with their values. -/
def FingerprintHash.table : List (FingerprintHash × Nat) :=
  (FingerprintHash.enumerators.map Prod.fst).zip
    (enumeratorValues 0 (FingerprintHash.enumerators.map Prod.snd))

/-- The numeric value of an enumerator of `FingerprintHash`. -/
def FingerprintHash.code (h : FingerprintHash) : Nat :=
  (FingerprintHash.table.lookup h).getD 0

/-- The enumerators of `FingerprintHash` that name a hash algorithm, in
declaration order: every enumerator but `NONE`. -/
def FingerprintHash.algorithms : List FingerprintHash :=
  (FingerprintHash.enumerators.map Prod.fst).filter (fun h => decide (h ≠ .NONE))

/-- Modelled from the spec: the fixed ordered set of supported hash
algorithms, weakest to strongest, "SHA-1, SHA-224, SHA-256, SHA-384,
SHA-512" (the function `GenerateFingerprints` that walks it is defined in
`DTLSAgent.cpp`). -/
def supportedHashAlgorithms : List FingerprintHash :=
  [.SHA1, .SHA224, .SHA256, .SHA384, .SHA512]

/-- Modelled from the spec: `RTC::SRTPSession::SRTPProfile` is declared in
`SRTPSession.h`; a profile is an identifier. -/
abbrev SRTPProfile := Nat

/-- The structure `SrtpProfileMapEntry`; the C string `name` is its list of
characters. -/
structure SrtpProfileMapEntry where
  profile : SRTPProfile
  name : List Char
  deriving DecidableEq, Repr

/-- The calls an agent makes on its `Listener`, one constructor per pure
virtual method of `class Listener`, with the data handed over. -/
inductive Event where
  | onOutgoingDTLSData (data : List MS_BYTE)
  | onDTLSConnected
  | onDTLSDisconnected
  | onDTLSFailed
  | onSRTPKeyMaterial (srtp_profile : SRTPProfile)
      (srtp_local_key srtp_remote_key : List MS_BYTE)
  | onDTLSApplicationData (data : List MS_BYTE)
  deriving DecidableEq, Repr

end DTLSAgent

/-- The private fields of `class DTLSAgent` with their default member
initializers.  A pointer is `none` when null and otherwise the handle of the
object it points to; the `std::string` is its list of characters. -/
structure DTLSAgent where
  listener : Option Nat := none
  ssl : Option Nat := none
  sslBioFromNetwork : Option Nat := none
  sslBioToNetwork : Option Nat := none
  timer : Option Nat := none
  role : DTLSAgent.DTLSRole := .NONE
  remoteFingerprintHash : DTLSAgent.FingerprintHash := .NONE
  remoteFingerprint : List Char := []
  isRunning : Bool := false
  isHandshakeDone : Bool := false
  isHandshakeDoneNow : Bool := false
  isConnected : Bool := false
  isCheckingStatus : Bool := false
  doReset : Bool := false
  doClose : Bool := false
  deriving DecidableEq, Repr

namespace DTLSAgent

/-- The inline method `IsConnected()`. -/
def IsConnected (this : DTLSAgent) : Bool :=
  this.isConnected

/-- The inline method `IsRunning()`. -/
def IsRunning (this : DTLSAgent) : Bool :=
  this.isRunning

/-- Modelled from the spec: the constructor `DTLSAgent(Listener* listener)`,
whose body is in `DTLSAgent.cpp`.  The agent starts Idle with no engine
instance bound: the listener is the argument, the timer is whatever the
constructor allocates (a parameter), and every other field keeps its default
member initializer. -/
def new (listener : Nat) (timer : Option Nat) : DTLSAgent :=
  { listener := some listener, timer := timer }

/-- Modelled from the spec: `SetRemoteFingerprint(hash, fingerprint)`, defined
in `DTLSAgent.cpp`, stores the peer's hash algorithm and hex digest; an agent
holds at most one such value. -/
def SetRemoteFingerprint (this : DTLSAgent) (hash : FingerprintHash)
    (fingerprint : List Char) : DTLSAgent :=
  { this with remoteFingerprintHash := hash, remoteFingerprint := fingerprint }

/-- Modelled from the spec: what the agent reads from its handshake engine
(the OpenSSL objects behind `ssl`, which are outside the repository) once the
handshake has completed, and the process-wide SRTP profile table
(`srtpProfiles`, filled in `DTLSAgent.cpp`).  `digest hash cert` is the hex
digest of the certificate under `hash`, `none` when the engine cannot compute
it; `exportKeys role` is the exported key material as (local write key,
remote read key) for that role; `encrypt data` is the records the engine writes
for application data. -/
structure Engine where
  peerCertificate : Option (List MS_BYTE)
  digest : FingerprintHash → List MS_BYTE → Option (List Char)
  negotiatedSuite : Option (List Char)
  srtpProfiles : List SrtpProfileMapEntry
  exportKeys : DTLSRole → Option (List MS_BYTE × List MS_BYTE)
  encrypt : List MS_BYTE → List (List MS_BYTE)

/-- Modelled from the spec: hex digests are compared case-insensitively, so
a digest is compared through its upper-case form. -/
def foldCase (s : List Char) : List Char :=
  s.map Char.toUpper

/-- Modelled from the spec: `CheckRemoteFingerprint()`, defined in
`DTLSAgent.cpp` (§4.2.1).  Retrieve the peer's certificate from the engine,
compute its digest with the hash algorithm supplied via
`SetRemoteFingerprint`, and compare it case-insensitively with the stored hex
digest.  Any mismatch, a remote fingerprint that was never set included, is a
failure. -/
def CheckRemoteFingerprint (E : Engine) (this : DTLSAgent) : Bool :=
  if this.remoteFingerprintHash = .NONE then false
  else
    match E.peerCertificate with
    | none => false
    | some certificate =>
      match E.digest this.remoteFingerprintHash certificate with
      | none => false
      | some hex => decide (foldCase hex = foldCase this.remoteFingerprint)

/-- Modelled from the spec: `GetNegotiatedSRTPProfile()`, defined in
`DTLSAgent.cpp` (§4.2.2, §4.3).  The negotiated suite name is mapped through
the SRTP profile table; an unknown name is a failure, not a default. -/
def GetNegotiatedSRTPProfile (E : Engine) : Option SRTPProfile :=
  match E.negotiatedSuite with
  | none => none
  | some name => (E.srtpProfiles.find? (fun entry => decide (entry.name = name))).map
      SrtpProfileMapEntry.profile

/-- Modelled from the spec: the transition to Closed via failure (§4.2).  The
header has no field for Closed; it is the agent with the engine binding
released and none of the running, handshake-done and connected flags set,
and the listener is told `onDTLSFailed`. -/
def fail (this : DTLSAgent) : DTLSAgent × List Event :=
  ({ this with
      ssl := none, sslBioFromNetwork := none, sslBioToNetwork := none,
      isRunning := false, isHandshakeDone := false, isHandshakeDoneNow := false,
      isConnected := false },
   [Event.onDTLSFailed])

/-- Modelled from the spec: `ProcessHandshake()`, defined in `DTLSAgent.cpp`
(§4.2, first bullet of Running), run when the handshake has just completed.
Verify the remote fingerprint; on success extract the SRTP key material and
emit `onDTLSConnected` followed by `onSRTPKeyMaterial`; on a fingerprint
mismatch, an unmapped suite or an engine error go to Closed via failure and
emit `onDTLSFailed`. -/
def ProcessHandshake (E : Engine) (this : DTLSAgent) : DTLSAgent × List Event :=
  if CheckRemoteFingerprint E this then
    match GetNegotiatedSRTPProfile E with
    | none => fail this
    | some srtp_profile =>
      match E.exportKeys this.role with
      | none => fail this
      | some (srtp_local_key, srtp_remote_key) =>
        ({ this with isHandshakeDone := true, isHandshakeDoneNow := false,
                     isConnected := true },
         [Event.onDTLSConnected,
          Event.onSRTPKeyMaterial srtp_profile srtp_local_key srtp_remote_key])
  else fail this

/-- Modelled from the spec: `SendApplicationData(data, len)`, defined in
`DTLSAgent.cpp` (§4.2).  Only meaningful in Connected, where the engine
encrypts the `len` bytes and the records go to the listener; outside
Connected the call does nothing.  The method returns `void`, so the outcome
is the agent afterwards and the listener calls made. -/
def SendApplicationData (E : Engine) (this : DTLSAgent) (data : List MS_BYTE)
    (len : Nat) : DTLSAgent × List Event :=
  if this.IsConnected then
    (this, (E.encrypt (data.take len)).map Event.onOutgoingDTLSData)
  else (this, [])

/-- Modelled from the spec: the two policies the spec allows for a `Reset` or
`Close` that arrives while a listener callback is firing (§4.2, §8): the call
is rejected, or it is deferred. -/
inductive ReentrancyPolicy where
  | reject
  | defer
  deriving DecidableEq, Repr

/-- Modelled from the spec: `Reset()`, defined in `DTLSAgent.cpp` (§4.2).
While the agent is checking the engine status the call is not executed: it is
rejected, or deferred by recording it in `doReset`.  Otherwise the engine
binding is torn down and the agent returns to Idle, keeping the configured
role and remote fingerprint. -/
def Reset (policy : ReentrancyPolicy) (this : DTLSAgent) : DTLSAgent × List Event :=
  if this.isCheckingStatus then
    match policy with
    | .reject => (this, [])
    | .defer => ({ this with doReset := true }, [])
  else
    ({ this with
        ssl := none, sslBioFromNetwork := none, sslBioToNetwork := none,
        isRunning := false, isHandshakeDone := false, isHandshakeDoneNow := false,
        isConnected := false, doReset := false },
     [])

/-- A sample engine after a completed handshake: the peer certificate has
the hex digest `AB:CD` under every hash, the negotiated suite is the one
entry of the profile table, and application data is sent as one record. -/
def sampleEngine : Engine where
  peerCertificate := some [48, 130, 1, 10]
  digest := fun _ _ => some ['A', 'B', ':', 'C', 'D']
  negotiatedSuite := some ['S', 'R', 'T', 'P']
  srtpProfiles := [{ profile := 1, name := ['S', 'R', 'T', 'P'] }]
  exportKeys := fun role =>
    match role with
    | .NONE => none
    | .SERVER => some ([1, 1], [2, 2])
    | .CLIENT => some ([2, 2], [1, 1])
  encrypt := fun data => [data]

/-- A sample agent in the middle of a status check: an engine is bound, the
agent is running and connected, and `isCheckingStatus` is set. -/
def sampleCheckingAgent : DTLSAgent :=
  { new 1 (some 2) with
      ssl := some 3, sslBioFromNetwork := some 4, sslBioToNetwork := some 5,
      role := DTLSRole.SERVER, isRunning := true, isHandshakeDone := true,
      isConnected := true, isCheckingStatus := true }

end DTLSAgent

/-! ## Helper lemmas -/

namespace DTLSAgent

theorem IsDTLS_short (data : List MS_BYTE) (len : Nat) (h : len < 13) :
    IsDTLS.run data len = some (false, []) := by
  unfold IsDTLS.run
  rw [if_neg (by omega)]

theorem IsDTLS_cons (b : MS_BYTE) (rest : List MS_BYTE) (len : Nat) (h : 13 ≤ len) :
    IsDTLS (b :: rest) len = some (decide (19 < b.val) && decide (b.val < 64)) := by
  unfold IsDTLS IsDTLS.run
  rw [if_pos h]
  by_cases h19 : b.val > 19 <;> simp [h19]

/-! ## The classification predicate `IsDTLS` -/

/-- C1: for every buffer and every `len` not beyond the buffer's size,
`IsDTLS(data, len)` returns, and it returns true if and only if `len >= 13`
and the first byte satisfies `19 < data[0] < 64`, that is
`20 <= data[0] <= 63`. -/
theorem IsDTLS_iff (data : List MS_BYTE) (len : Nat) (hlen : len ≤ data.length) :
    ∃ r, IsDTLS data len = some r ∧
      (r = true ↔ 13 ≤ len ∧ ∃ b, data[0]? = some b ∧ 19 < b.val ∧ b.val < 64) ∧
      (r = true ↔ 13 ≤ len ∧ ∃ b, data[0]? = some b ∧ 20 ≤ b.val ∧ b.val ≤ 63) := by
  by_cases h13 : 13 ≤ len
  · cases data with
    | nil =>
      simp at hlen
      omega
    | cons b rest =>
      refine ⟨_, IsDTLS_cons b rest len h13, ?_, ?_⟩
      · simp [h13]
      · simp [h13]
        omega
  · refine ⟨false, ?_, ?_, ?_⟩
    · unfold IsDTLS
      rw [IsDTLS_short data len (by omega)]
      rfl
    · simp [h13]
    · simp [h13]

/-- Witness of C1: a 13-byte buffer of bytes 22 with `len = 13`. -/
theorem IsDTLS_iff_witness :
    13 ≤ (List.replicate 13 (22 : MS_BYTE)).length ∧
    ∃ r, IsDTLS (List.replicate 13 (22 : MS_BYTE)) 13 = some r ∧
      (r = true ↔ 13 ≤ 13 ∧ ∃ b, (List.replicate 13 (22 : MS_BYTE))[0]? = some b ∧
        19 < b.val ∧ b.val < 64) ∧
      (r = true ↔ 13 ≤ 13 ∧ ∃ b, (List.replicate 13 (22 : MS_BYTE))[0]? = some b ∧
        20 ≤ b.val ∧ b.val ≤ 63) :=
  ⟨by decide, IsDTLS_iff (List.replicate 13 (22 : MS_BYTE)) 13 (by decide)⟩

/-- C2: a 13-byte buffer whose first byte is 20, or 63, classifies as DTLS;
a buffer of any length whose first byte is 19 or 64 never does, whatever the
length argument. -/
theorem IsDTLS_boundary_bytes (data : List MS_BYTE) (b : MS_BYTE)
    (hb : data[0]? = some b) :
    ((b.val = 20 ∨ b.val = 63) → data.length = 13 → IsDTLS data 13 = some true) ∧
    ((b.val = 19 ∨ b.val = 64) → ∀ len, IsDTLS data len = some false) := by
  cases data with
  | nil => simp at hb
  | cons b0 rest =>
    simp at hb
    subst hb
    constructor
    · intro h _
      rw [IsDTLS_cons b0 rest 13 (by omega)]
      rcases h with h | h <;> simp [h]
    · intro h len
      by_cases h13 : 13 ≤ len
      · rw [IsDTLS_cons b0 rest len h13]
        rcases h with h | h <;> simp [h]
      · unfold IsDTLS
        rw [IsDTLS_short _ len (by omega)]
        rfl

/-- Witness of C2: the 13-byte buffer that starts with 20 and is zero after
it. -/
theorem IsDTLS_boundary_bytes_witness :
    ((20 : MS_BYTE) :: List.replicate 12 0)[0]? = some 20 ∧
    ((((20 : MS_BYTE).val = 20 ∨ (20 : MS_BYTE).val = 63) →
        ((20 : MS_BYTE) :: List.replicate 12 0).length = 13 →
        IsDTLS ((20 : MS_BYTE) :: List.replicate 12 0) 13 = some true) ∧
     (((20 : MS_BYTE).val = 19 ∨ (20 : MS_BYTE).val = 64) →
        ∀ len, IsDTLS ((20 : MS_BYTE) :: List.replicate 12 0) len = some false)) :=
  ⟨by decide, IsDTLS_boundary_bytes ((20 : MS_BYTE) :: List.replicate 12 0) 20 (by decide)⟩

/-- C3: for every buffer and every `len < 13`, whatever the content, `IsDTLS`
returns false; some 13-byte buffer classifies as DTLS, so 13 is the least
length at which a buffer can. -/
theorem IsDTLS_length_threshold :
    (∀ (data : List MS_BYTE) (len : Nat), len < 13 → IsDTLS data len = some false) ∧
    (∃ data : List MS_BYTE, data.length = 13 ∧ IsDTLS data 13 = some true) ∧
    (∀ (data : List MS_BYTE) (len : Nat), IsDTLS data len = some true → 13 ≤ len) := by
  have hshort : ∀ (data : List MS_BYTE) (len : Nat), len < 13 →
      IsDTLS data len = some false := by
    intro data len h
    unfold IsDTLS
    rw [IsDTLS_short data len h]
    rfl
  refine ⟨hshort, ⟨List.replicate 13 20, by decide, by decide⟩, ?_⟩
  intro data len h
  by_contra hlt
  rw [hshort data len (by omega)] at h
  simp at h

/-- Witness of C3: a 12-byte buffer whose bytes are all 20 with `len = 12`. -/
theorem IsDTLS_length_threshold_witness :
    12 < 13 ∧ IsDTLS (List.replicate 12 (20 : MS_BYTE)) 12 = some false :=
  ⟨by decide, IsDTLS_length_threshold.1 (List.replicate 12 (20 : MS_BYTE)) 12 (by decide)⟩

/-- C4: the result of `IsDTLS` is a function of `len` and the first byte
alone: two calls with equal length arguments on buffers with the same first
byte (or both empty) return the same value, whatever the bytes at index 1 and
beyond.  The function takes no agent and reads no field or static. -/
theorem IsDTLS_first_byte_only (d1 d2 : List MS_BYTE) (len1 len2 : Nat)
    (hlen : len1 = len2) (hfirst : d1[0]? = d2[0]?) :
    IsDTLS d1 len1 = IsDTLS d2 len2 := by
  subst hlen
  unfold IsDTLS IsDTLS.run
  rw [hfirst]

/-- Witness of C4: two 13-byte buffers that start with 22 and differ in every
other byte. -/
theorem IsDTLS_first_byte_only_witness :
    (13 : Nat) = 13 ∧
    ((22 : MS_BYTE) :: List.replicate 12 0)[0]? = ((22 : MS_BYTE) :: List.replicate 12 255)[0]? ∧
    IsDTLS ((22 : MS_BYTE) :: List.replicate 12 0) 13 =
      IsDTLS ((22 : MS_BYTE) :: List.replicate 12 255) 13 :=
  ⟨rfl, by decide,
    IsDTLS_first_byte_only ((22 : MS_BYTE) :: List.replicate 12 0)
      ((22 : MS_BYTE) :: List.replicate 12 255) 13 13 rfl (by decide)⟩

/-- C10: for every buffer whose size is at least `len`, the empty buffer
included, the run of `IsDTLS` meets no out-of-bounds read: it returns a
value, every index it reads is below `len`, and it reads nothing at all
unless `len >= 13`. -/
theorem IsDTLS_reads_in_bounds (data : List MS_BYTE) (len : Nat)
    (hlen : len ≤ data.length) :
    ∃ r reads, IsDTLS.run data len = some (r, reads) ∧
      IsDTLS data len = some r ∧
      (∀ i ∈ reads, i < len ∧ i < data.length) ∧
      (len < 13 → reads = []) := by
  by_cases h13 : 13 ≤ len
  · cases data with
    | nil =>
      simp at hlen
      omega
    | cons b rest =>
      have hpos : 0 < (b :: rest).length := by simp
      by_cases h19 : b.val > 19
      · refine ⟨decide (b.val < 64), [0, 0], ?_, ?_, ?_, ?_⟩
        · unfold IsDTLS.run
          simp [h13, h19]
        · unfold IsDTLS IsDTLS.run
          simp [h13, h19]
        · intro i hi
          simp at hi
          subst hi
          exact ⟨by omega, hpos⟩
        · intro h
          omega
      · refine ⟨false, [0], ?_, ?_, ?_, ?_⟩
        · unfold IsDTLS.run
          simp [h13, h19]
        · unfold IsDTLS IsDTLS.run
          simp [h13, h19]
        · intro i hi
          simp at hi
          subst hi
          exact ⟨by omega, hpos⟩
        · intro h
          omega
  · refine ⟨false, [], IsDTLS_short data len (by omega), ?_, ?_, ?_⟩
    · unfold IsDTLS
      rw [IsDTLS_short data len (by omega)]
      rfl
    · intro i hi
      simp at hi
    · intro _
      rfl

/-- Witness of C10: the empty buffer with `len = 0`. -/
theorem IsDTLS_reads_in_bounds_witness :
    0 ≤ ([] : List MS_BYTE).length ∧
    ∃ r reads, IsDTLS.run ([] : List MS_BYTE) 0 = some (r, reads) ∧
      IsDTLS ([] : List MS_BYTE) 0 = some r ∧
      (∀ i ∈ reads, i < 0 ∧ i < ([] : List MS_BYTE).length) ∧
      (0 < 13 → reads = []) :=
  ⟨by decide, IsDTLS_reads_in_bounds ([] : List MS_BYTE) 0 (by decide)⟩

/-! ## The agent -/

theorem CheckRemoteFingerprint_mismatch (E : Engine) (a : DTLSAgent)
    (hmis : a.remoteFingerprintHash = FingerprintHash.NONE ∨
      ∀ certificate hex, E.peerCertificate = some certificate →
        E.digest a.remoteFingerprintHash certificate = some hex →
        foldCase hex ≠ foldCase a.remoteFingerprint) :
    CheckRemoteFingerprint E a = false := by
  unfold CheckRemoteFingerprint
  by_cases hnone : a.remoteFingerprintHash = FingerprintHash.NONE
  · rw [if_pos hnone]
  · rw [if_neg hnone]
    rcases hmis with h | h
    · exact absurd h hnone
    · cases hc : E.peerCertificate with
      | none => simp
      | some certificate =>
        cases hd : E.digest a.remoteFingerprintHash certificate with
        | none => simp [hd]
        | some hex => simp [hd, h certificate hex hc hd]

theorem ProcessHandshake_connects_on_match :
    ProcessHandshake sampleEngine
        { sampleCheckingAgent with
            isHandshakeDone := false, isHandshakeDoneNow := true, isConnected := false,
            remoteFingerprintHash := FingerprintHash.SHA256,
            remoteFingerprint := ['a', 'b', ':', 'c', 'd'] } =
      ({ sampleCheckingAgent with
            remoteFingerprintHash := FingerprintHash.SHA256,
            remoteFingerprint := ['a', 'b', ':', 'c', 'd'] },
       [Event.onDTLSConnected, Event.onSRTPKeyMaterial 1 [1, 1] [2, 2]]) := by
  decide

theorem SendApplicationData_connected_sends :
    SendApplicationData sampleEngine sampleCheckingAgent [7, 8, 9] 2 =
      (sampleCheckingAgent, [Event.onOutgoingDTLSData [7, 8]]) := by
  decide

theorem Reset_outside_status_check_tears_down :
    (Reset ReentrancyPolicy.defer { sampleCheckingAgent with isCheckingStatus := false }).1 =
      { new 1 (some 2) with role := DTLSRole.SERVER } := by
  decide

/-- C5: when the handshake has completed and the hex digest of the peer
certificate, computed with the hash set via `SetRemoteFingerprint`, does not
match the stored remote fingerprint (letter case aside), or no remote
fingerprint was ever set (`remoteFingerprintHash` is `NONE`), the agent emits
`onDTLSFailed`, does not emit `onDTLSConnected`, and `IsConnected()` is false
afterwards. -/
theorem ProcessHandshake_fails_closed (E : Engine) (a : DTLSAgent)
    (hmis : a.remoteFingerprintHash = FingerprintHash.NONE ∨
      ∀ certificate hex, E.peerCertificate = some certificate →
        E.digest a.remoteFingerprintHash certificate = some hex →
        foldCase hex ≠ foldCase a.remoteFingerprint) :
    (ProcessHandshake E a).2 = [Event.onDTLSFailed] ∧
    Event.onDTLSConnected ∉ (ProcessHandshake E a).2 ∧
    IsConnected (ProcessHandshake E a).1 = false := by
  have hcheck := CheckRemoteFingerprint_mismatch E a hmis
  have hrun : ProcessHandshake E a = fail a := by
    unfold ProcessHandshake
    rw [hcheck]
    rfl
  rw [hrun]
  refine ⟨rfl, ?_, rfl⟩
  simp [fail]

/-- Witness of C5: the peer certificate's digest is `AB:CD` and the agent
was given the SHA-256 fingerprint `AB:CE`. -/
theorem ProcessHandshake_fails_closed_witness :
    ((SetRemoteFingerprint (new 1 none) FingerprintHash.SHA256
          ['A', 'B', ':', 'C', 'E']).remoteFingerprintHash = FingerprintHash.NONE ∨
      ∀ certificate hex, sampleEngine.peerCertificate = some certificate →
        sampleEngine.digest
          (SetRemoteFingerprint (new 1 none) FingerprintHash.SHA256
            ['A', 'B', ':', 'C', 'E']).remoteFingerprintHash certificate = some hex →
        foldCase hex ≠ foldCase
          (SetRemoteFingerprint (new 1 none) FingerprintHash.SHA256
            ['A', 'B', ':', 'C', 'E']).remoteFingerprint) ∧
    (ProcessHandshake sampleEngine
        (SetRemoteFingerprint (new 1 none) FingerprintHash.SHA256
          ['A', 'B', ':', 'C', 'E'])).2 = [Event.onDTLSFailed] ∧
    Event.onDTLSConnected ∉ (ProcessHandshake sampleEngine
        (SetRemoteFingerprint (new 1 none) FingerprintHash.SHA256
          ['A', 'B', ':', 'C', 'E'])).2 ∧
    IsConnected (ProcessHandshake sampleEngine
        (SetRemoteFingerprint (new 1 none) FingerprintHash.SHA256
          ['A', 'B', ':', 'C', 'E'])).1 = false :=
  have hmis : ∀ certificate hex, sampleEngine.peerCertificate = some certificate →
      sampleEngine.digest
        (SetRemoteFingerprint (new 1 none) FingerprintHash.SHA256
          ['A', 'B', ':', 'C', 'E']).remoteFingerprintHash certificate = some hex →
      foldCase hex ≠ foldCase
        (SetRemoteFingerprint (new 1 none) FingerprintHash.SHA256
          ['A', 'B', ':', 'C', 'E']).remoteFingerprint := by
    intro certificate hex _ hd
    simp only [sampleEngine, Option.some.injEq] at hd
    subst hd
    decide
  ⟨Or.inr hmis, ProcessHandshake_fails_closed sampleEngine _ (Or.inr hmis)⟩

/-- C6: `SendApplicationData(data, len)` on an agent for which
`IsConnected()` is false (Idle or Running) makes no listener call, so no
`onOutgoingDTLSData`, and leaves the agent unchanged. -/
theorem SendApplicationData_not_connected (E : Engine) (a : DTLSAgent)
    (data : List MS_BYTE) (len : Nat) (h : IsConnected a = false) :
    SendApplicationData E a data len = (a, []) := by
  unfold SendApplicationData
  rw [h]
  rfl

/-- Witness of C6: a freshly constructed (Idle) agent asked to send three
bytes. -/
theorem SendApplicationData_not_connected_witness :
    IsConnected (new 1 none) = false ∧
    SendApplicationData sampleEngine (new 1 none) [1, 2, 3] 3 = (new 1 none, []) :=
  ⟨rfl, SendApplicationData_not_connected sampleEngine (new 1 none) [1, 2, 3] 3 rfl⟩

/-- C7: a freshly constructed agent is Idle: `IsRunning()` and
`IsConnected()` are false, `ssl` and both BIOs are null, the role and the
remote fingerprint hash are `NONE`, and none of the handshake-done,
status-checking, deferred-reset and deferred-close flags is set. -/
theorem new_is_idle (listener : Nat) (timer : Option Nat) :
    IsRunning (new listener timer) = false ∧
    IsConnected (new listener timer) = false ∧
    (new listener timer).ssl = none ∧
    (new listener timer).sslBioFromNetwork = none ∧
    (new listener timer).sslBioToNetwork = none ∧
    (new listener timer).role = DTLSRole.NONE ∧
    (new listener timer).remoteFingerprintHash = FingerprintHash.NONE ∧
    (new listener timer).remoteFingerprint = [] ∧
    (new listener timer).isHandshakeDone = false ∧
    (new listener timer).isHandshakeDoneNow = false ∧
    (new listener timer).isCheckingStatus = false ∧
    (new listener timer).doReset = false ∧
    (new listener timer).doClose = false :=
  ⟨rfl, rfl, rfl, rfl, rfl, rfl, rfl, rfl, rfl, rfl, rfl, rfl, rfl⟩

/-- C9: the hash algorithms of `FingerprintHash` are exactly the five
supported ones, SHA1, SHA224, SHA256, SHA384, SHA512; their codes are 1, 2,
3, 4, 5, pairwise distinct and strictly increasing in the weakest-to-strongest
order; `NONE` has code 0 and is none of the supported algorithms. -/
theorem supported_hash_codes :
    supportedHashAlgorithms = FingerprintHash.algorithms ∧
    (∀ h : FingerprintHash, h ∈ supportedHashAlgorithms ↔ h ≠ FingerprintHash.NONE) ∧
    supportedHashAlgorithms.length = 5 ∧
    supportedHashAlgorithms.map FingerprintHash.code = [1, 2, 3, 4, 5] ∧
    (supportedHashAlgorithms.map FingerprintHash.code).Pairwise (fun x y => x < y) ∧
    (∀ h1 h2 : FingerprintHash, FingerprintHash.code h1 = FingerprintHash.code h2 → h1 = h2) ∧
    FingerprintHash.code FingerprintHash.NONE = 0 ∧
    FingerprintHash.NONE ∉ supportedHashAlgorithms := by
  refine ⟨by decide, ?_, by decide, by decide, by decide, ?_, by decide, by decide⟩
  · intro h
    cases h <;> decide
  · intro h1 h2
    cases h1 <;> cases h2 <;> decide

end DTLSAgent

end RTC
